import Mathlib

/-!
Verification of the whatsapiGo webhook delivery subsystem.

Shallow embedding of the webhook service (`services.WebhookService`, source
file `part_011`) and the webhook controller
(`backend/controllers/webhook_controller.go`).  Go `int`/`int64` values are
modelled as `Int`; `time.Duration` (an `int64` count of nanoseconds) is
modelled as `Int` with explicit two's-complement wrap-around where a
computation can overflow; Go `float64` metric fields are modelled as `ℚ`
(the claims under study are exact arithmetic identities, not rounding
statements).  Database rows are passed explicitly as values.
-/

/-- Two's-complement wrap-around of an integer into the `int64` range,
modelling Go's defined signed-overflow behaviour. -/
def int64wrap (x : Int) : Int :=
  (x + 2 ^ 63) % 2 ^ 64 - 2 ^ 63

/-- One second as a Go `time.Duration` (nanoseconds), `time.Second`. -/
def second : Int := 1000000000

/-- A minimal JSON value, used to model the JSON texts that the Go code
stores in `text` columns (`WebhookConfig.Events`,
`CallRejectConfig.WhitelistNumbers`, `CustomMessages`, `ScheduleConfig`)
and re-parses with `encoding/json`. -/
inductive Json where
  | null
  | bool (b : Bool)
  | num (n : Int)
  | str (s : String)
  | arr (elems : List Json)
  | obj (fields : List (String × Json))

/-- A Go `string` column holding serialized JSON, classified by how
`json.Unmarshal` treats it: the empty string (which the Go code sometimes
special-cases and which fails to unmarshal), a well-formed JSON document,
or malformed text (unmarshal error). -/
inductive StoredText where
  | emptyStr
  | json (j : Json)
  | invalid

/-- `json.Unmarshal` of a JSON value into a Go `string`: succeeds only on
a JSON string. -/
def asString : Json → Option String
  | .str s => some s
  | _ => none

/-- Decode every element of a JSON array as a string; any non-string
element is an unmarshal error. -/
def decodeStrings : List Json → Option (List String)
  | [] => some []
  | j :: rest =>
    match asString j with
    | none => none
    | some s => (decodeStrings rest).map (fun l => s :: l)

/-- Decode every value of a JSON object as a string; any non-string value
is an unmarshal error. -/
def decodeStringPairs : List (String × Json) → Option (List (String × String))
  | [] => some []
  | (k, j) :: rest =>
    match asString j with
    | none => none
    | some s => (decodeStringPairs rest).map (fun l => (k, s) :: l)

/-- `json.Unmarshal` of a stored text into a Go `[]string`: succeeds on a
JSON array whose elements are all strings (and on `null`, which yields the
nil slice); every other input is an unmarshal error. -/
def unmarshalStringArray : StoredText → Option (List String)
  | .json (.arr xs) => decodeStrings xs
  | .json .null => some []
  | _ => none

/-- `json.Unmarshal` of a stored text into a Go `map[string]string`:
succeeds on a JSON object with string values (or `null`, the nil map). -/
def unmarshalStringMap : StoredText → Option (List (String × String))
  | .json (.obj fs) => decodeStringPairs fs
  | .json .null => some []
  | _ => none

/-- `json.Unmarshal` of a stored text into a Go `map[string]interface\x7b\x7d`:
succeeds on any JSON object (or `null`). -/
def unmarshalAnyMap : StoredText → Option (List (String × Json))
  | .json (.obj fs) => some fs
  | .json .null => some []
  | _ => none

/-- Go map lookup on an association list (marshalled Go maps have unique
keys). -/
def lookupString (k : String) : List (String × String) → Option String
  | [] => none
  | (k2, v) :: rest => if k2 == k then some v else lookupString k rest

/-- `WebhookConfig` (webhook_controller.go / models): one webhook
subscription row.  The `Secret` string is modelled by its byte sequence
(`[]byte(webhook.Secret)` is what the HMAC consumes); `Events` holds the
serialized event filter. -/
structure WebhookConfig where
  instanceID : String := ""
  webhookID : String := ""
  url : String := ""
  secret : List Nat := []
  events : StoredText := .emptyStr
  isActive : Bool := true
  maxRetries : Int := 5
  timeout : Int := 30

/-- `WebhookMetrics` (webhook_controller.go): per-subscription delivery
counters.  `LastEvent` (a wall-clock timestamp) is omitted; no claim
mentions it.  The `int64` counters are modelled as `Int` (they increment by
one per delivery attempt, so their `int64` range is unreachable); the
`float64` rate/average fields are modelled as `ℚ`. -/
structure WebhookMetrics where
  totalSent : Int := 0
  totalSuccess : Int := 0
  totalFailed : Int := 0
  successRate : ℚ := 0
  avgResponseTime : ℚ := 0

/-- `WebhookLog` (webhook_controller.go): the delivery-attempt record for
one (event, webhook) pair, mutated in place across attempts.  Row ids,
`InstanceID`/`WebhookID` keys and timestamps are omitted; the record is
identified by being passed explicitly. -/
structure WebhookLog where
  eventID : String := ""
  eventType : String := ""
  payload : String := ""
  statusCode : Int := 0
  responseTime : Int := 0
  attemptCount : Int := 0
  isSuccess : Bool := false
  errorMessage : String := ""

/-- The outcome of one HTTP delivery attempt as returned by
`sendWebhookEvent` (controller) / `doHTTPRequest` (service):
`(success, statusCode, err)` plus the measured latency in milliseconds. -/
structure Outcome where
  success : Bool := false
  statusCode : Int := 0
  responseTime : Int := 0
  errMsg : Option String := none

/-- `updateWebhookMetrics` (service part_011 lines 358-386 and
webhook_controller.go lines 1185-1210; the two copies perform the same
arithmetic): increment `TotalSent` and one of `TotalSuccess`/`TotalFailed`,
recompute `SuccessRate` from the post-increment counters when
`TotalSent > 0`, and fold the latency into `AvgResponseTime` with the
two-point rule (`AvgResponseTime` is read before being overwritten). -/
def updateWebhookMetrics (m : WebhookMetrics) (success : Bool) (responseTime : Int) :
    WebhookMetrics :=
  let totalSent := m.totalSent + 1
  let totalSuccess := if success then m.totalSuccess + 1 else m.totalSuccess
  let totalFailed := if success then m.totalFailed else m.totalFailed + 1
  let successRate :=
    if totalSent > 0 then ((totalSuccess : ℚ) / (totalSent : ℚ)) * 100 else m.successRate
  let avgResponseTime :=
    if m.avgResponseTime = 0 then (responseTime : ℚ)
    else (m.avgResponseTime + (responseTime : ℚ)) / 2
  { totalSent := totalSent, totalSuccess := totalSuccess, totalFailed := totalFailed,
    successRate := successRate, avgResponseTime := avgResponseTime }

/-- `calculateBackoff` (part_011 lines 344-355):
`baseDelay * time.Duration(1 << uint(attempt-1))`, capped at 32 seconds.
Both the shift (on `int`) and the product (on `time.Duration`, i.e. `int64`)
wrap in two's complement; a shift count `≥ 64` yields `0`, and
`uint(attempt-1)` for `attempt ≤ 0` is a huge unsigned count, so the shifted
value is `0` in that case. -/
def calculateBackoff (attempt : Int) : Int :=
  let shifted : Int :=
    if 1 ≤ attempt then int64wrap (2 ^ (attempt - 1).toNat) else 0
  let backoffTime := int64wrap (second * shifted)
  if backoffTime > 32 * second then 32 * second else backoffTime

/-- The metrics rows are created zeroed (`ConfigureWebhook`/`AddWebhook`
insert `TotalSent: 0, TotalSuccess: 0, TotalFailed: 0, SuccessRate: 0`,
and the remaining columns default to 0). -/
def initialMetrics : WebhookMetrics := {}

/-- Replay a chronological list of attempt outcomes
`(success, responseTime)` through the metrics aggregator, starting from a
freshly created metrics row. -/
def applyOutcomes (outcomes : List (Bool × Int)) : WebhookMetrics :=
  outcomes.foldl (fun m u => updateWebhookMetrics m u.1 u.2) initialMetrics

/-- The body of the retry loop in the service `sendWebhookEvent`
(part_011 lines 281-320), unrolled on fuel.  At each attempt the log row
is overwritten with the attempt's outcome (`ErrorMessage` is only set when
the attempt returned an error, never cleared), the metrics are updated
with the attempt's outcome, and — when the attempt failed and was not the
last one — the task sleeps `calculateBackoff attempt` before the next
attempt.  The `outcome` argument stands for the HTTP endpoint's behaviour
at each attempt number.  Returns the final log row, the chronological list
of `(success, responseTime)` metrics updates, and the chronological list
of inserted backoff sleeps.  The entry point supplies
`fuel = maxRetries.toNat` and `attempt = 1`, so `fuel` counts the
remaining iterations of Go's `for attempt := 1; attempt <= MaxRetries`
loop. -/
def sendLoopAux (outcome : Int → Outcome) (maxRetries : Int) :
    Nat → Int → WebhookLog → WebhookLog × List (Bool × Int) × List Int
  | 0, _, log => (log, [], [])
  | fuel + 1, attempt, log =>
    let o := outcome attempt
    let log1 : WebhookLog :=
      { log with attemptCount := attempt, statusCode := o.statusCode,
                 responseTime := o.responseTime, isSuccess := o.success,
                 errorMessage := match o.errMsg with
                   | some e => e
                   | none => log.errorMessage }
    if o.success then
      (log1, [(true, o.responseTime)], [])
    else if attempt < maxRetries then
      let r := sendLoopAux outcome maxRetries fuel (attempt + 1) log1
      (r.1, (false, o.responseTime) :: r.2.1, calculateBackoff attempt :: r.2.2)
    else
      (log1, [(false, o.responseTime)], [])

/-- The service `sendWebhookEvent` (part_011 lines 266-327): build the
initial log row (`AttemptCount: 0`) and run the retry loop.  When
`MaxRetries ≤ 0` the loop body never executes (`1 <= MaxRetries` fails
immediately), which the `Int.toNat`-sized fuel reproduces. -/
def sendWebhookEvent (webhook : WebhookConfig) (eventID eventType payload : String)
    (outcome : Int → Outcome) : WebhookLog × List (Bool × Int) × List Int :=
  let log : WebhookLog :=
    { eventID := eventID, eventType := eventType, payload := payload, attemptCount := 0 }
  sendLoopAux outcome webhook.maxRetries webhook.maxRetries.toNat 1 log

/-- `isEventConfigured` (part_011 lines 249-263): unmarshal the stored
`Events` text into `[]string` (any unmarshal error yields `false`), then
scan for an entry equal to the event type or to the wildcard. -/
def isEventConfigured (webhook : WebhookConfig) (eventType : String) : Bool :=
  match unmarshalStringArray webhook.events with
  | none => false
  | some events => events.any (fun e => e == eventType || e == "*")

/-- The dispatch step of `processEvent` (part_011 lines 99-126): the
instance's active subscriptions are loaded (`is_active = true` in the
query, modelled by the `isActive` filter) and a delivery task is started
for exactly those passing `isEventConfigured`. -/
def processEventTargets (webhooks : List WebhookConfig) (eventType : String) :
    List WebhookConfig :=
  (webhooks.filter (fun w => w.isActive)).filter (fun w => isEventConfigured w eventType)

/-- `WebhookFiltersRequest` (webhook_controller.go lines 128-134). -/
structure WebhookFiltersRequest where
  webhookID : String := ""
  eventTypes : List String := []
  contactFilter : List String := []
  groupFilter : List String := []
  keywords : List String := []

/-- `json.Marshal` of a Go `[]string`. -/
def stringArrayJson (xs : List String) : Json :=
  .arr (xs.map .str)

/-- `ConfigureFilters` (webhook_controller.go lines 869-927), storage
step: marshal the `gin.H` filters map (keys serialized in sorted order)
and overwrite the webhook's `events` column with the resulting JSON
object. -/
def configureFilters (webhook : WebhookConfig) (request : WebhookFiltersRequest) :
    WebhookConfig :=
  { webhook with events := .json (.obj
      [("contact_filter", stringArrayJson request.contactFilter),
       ("event_types", stringArrayJson request.eventTypes),
       ("group_filter", stringArrayJson request.groupFilter),
       ("keywords", stringArrayJson request.keywords)]) }

/-- Result of the `RetryEvent` endpoint relative to one stored log row:
whether the request was rejected as already delivered, how many HTTP
delivery attempts were performed, and the resulting log row and metrics
row. -/
structure RetryResult where
  rejected : Bool
  attemptsMade : Nat
  log : WebhookLog
  metrics : WebhookMetrics

/-- `RetryEvent` (webhook_controller.go lines 707-808), after the record
and its webhook configuration have been loaded and the stored payload
snapshot unmarshalled (the snapshot was produced by `json.Marshal`, so it
round-trips): if the record is already successful, answer 400 and change
nothing; otherwise perform exactly one delivery attempt, increment
`AttemptCount`, overwrite the outcome fields (`ErrorMessage` is cleared
when the attempt returned no error), save the record, and update the
metrics only when the attempt succeeded. -/
def retryEvent (log : WebhookLog) (webhook : WebhookConfig) (o : Outcome)
    (m : WebhookMetrics) : RetryResult :=
  if log.isSuccess then
    { rejected := true, attemptsMade := 0, log := log, metrics := m }
  else
    let log1 : WebhookLog :=
      { log with attemptCount := log.attemptCount + 1, statusCode := o.statusCode,
                 responseTime := o.responseTime, isSuccess := o.success,
                 errorMessage := match o.errMsg with
                   | some e => e
                   | none => "" }
    { rejected := false, attemptsMade := 1, log := log1,
      metrics := if o.success then updateWebhookMetrics m true o.responseTime else m }

/-- `CallRejectConfig` (webhook_controller.go lines 86-96): the per-instance
call auto-reject policy row. -/
structure CallRejectConfig where
  instanceID : String := ""
  autoReject : Bool := true
  whitelistNumbers : StoredText := .emptyStr
  customMessages : StoredText := .emptyStr
  scheduleEnabled : Bool := false
  scheduleConfig : StoredText := .emptyStr

/-- `isNumberWhitelisted` (part_011 lines 429-446): empty stored text and
unmarshal errors mean "not whitelisted"; otherwise scan for the caller
JID. -/
def isNumberWhitelisted (config : CallRejectConfig) (callerJID : String) : Bool :=
  match config.whitelistNumbers with
  | .emptyStr => false
  | t =>
    match unmarshalStringArray t with
    | none => false
    | some whitelist => whitelist.any (fun number => number == callerJID)

/-- `isWithinSchedule` (part_011 lines 449-462): empty config and
unmarshal errors mean "within schedule"; the actual time-window check is a
TODO in the source and the function returns `true` on every input. -/
def isWithinSchedule (config : CallRejectConfig) : Bool :=
  match config.scheduleConfig with
  | .emptyStr => true
  | t =>
    match unmarshalAnyMap t with
    | none => true
    | some _ => true

/-- `handleAutoRejectCall` (part_011 lines 389-426), as the decision
whether a reject action is issued for a call offer.  `config = none`
models the `First` query finding no `CallRejectConfig` row.  Modelled from
the spec at the final branch only: the protocol-level reject call there is
a TODO in the source (`// client.RejectCall(callOffer.CallID)`), so
per spec section 4.8 reaching that branch is modelled as issuing the
reject action; every guard is translated from the source. -/
def handleAutoRejectCall (config : Option CallRejectConfig) (callerJID : String) : Bool :=
  match config with
  | none => false
  | some cfg =>
    if !cfg.autoReject then false
    else if isNumberWhitelisted cfg callerJID then false
    else if cfg.scheduleEnabled && !isWithinSchedule cfg then false
    else true

/-- The hard-coded fallback reject message of `RejectCall`
(webhook_controller.go lines 964, 967). -/
def fallbackRejectMessage : String :=
  "Lo siento, no puedo atender llamadas en este momento. Por favor envía un mensaje de texto."

/-- The message-resolution step of `RejectCall` (webhook_controller.go
lines 956-969): an explicit request message wins; otherwise, when
`CustomMessages` is non-empty it is unmarshalled (errors ignored, leaving
the nil map) and the `"default"` key is used when present; in every other
case the hard-coded fallback applies. -/
def resolveRejectMessage (requestMessage : String) (config : CallRejectConfig) : String :=
  if requestMessage == "" then
    match config.customMessages with
    | .emptyStr => fallbackRejectMessage
    | t =>
      match unmarshalStringMap t with
      | none => fallbackRejectMessage
      | some msgs =>
        match lookupString "default" msgs with
        | some d => d
        | none => fallbackRejectMessage
  else requestMessage

/-- The first-match default lookup of the claim's words: the configured
default message is the `"default"` entry of the subscription's custom
messages, when that field unmarshals and has one. -/
def configuredDefault (config : CallRejectConfig) : Option String :=
  (unmarshalStringMap config.customMessages).bind (lookupString "default")

/-- Truncation to a 32-bit word, for the SHA-256 arithmetic. -/
def w32 (x : Nat) : Nat := x % 4294967296

/-- 32-bit right rotation (operand assumed `< 2^32`). -/
def rotr (n x : Nat) : Nat := w32 (x >>> n ||| x <<< (32 - n))

/-- SHA-256 small sigma 0. -/
def sSig0 (x : Nat) : Nat := rotr 7 x ^^^ rotr 18 x ^^^ x >>> 3

/-- SHA-256 small sigma 1. -/
def sSig1 (x : Nat) : Nat := rotr 17 x ^^^ rotr 19 x ^^^ x >>> 10

/-- SHA-256 big sigma 0. -/
def bSig0 (x : Nat) : Nat := rotr 2 x ^^^ rotr 13 x ^^^ rotr 22 x

/-- SHA-256 big sigma 1. -/
def bSig1 (x : Nat) : Nat := rotr 6 x ^^^ rotr 11 x ^^^ rotr 25 x

/-- The SHA-256 round constants (FIPS 180-4), in decimal. -/
def shaK : List Nat :=
  [1116352408, 1899447441, 3049323471, 3921009573, 961987163,
   1508970993, 2453635748, 2870763221, 3624381080, 310598401,
   607225278, 1426881987, 1925078388, 2162078206, 2614888103,
   3248222580, 3835390401, 4022224774, 264347078, 604807628,
   770255983, 1249150122, 1555081692, 1996064986, 2554220882,
   2821834349, 2952996808, 3210313671, 3336571891, 3584528711,
   113926993, 338241895, 666307205, 773529912, 1294757372,
   1396182291, 1695183700, 1986661051, 2177026350, 2456956037,
   2730485921, 2820302411, 3259730800, 3345764771, 3516065817,
   3600352804, 4094571909, 275423344, 430227734, 506948616,
   659060556, 883997877, 958139571, 1322822218, 1537002063,
   1747873779, 1955562222, 2024104815, 2227730452, 2361852424,
   2428436474, 2756734187, 3204031479, 3329325298]

/-- The SHA-256 initial hash state (FIPS 180-4), in decimal. -/
def shaInitH : List Nat :=
  [1779033703, 3144134277, 1013904242, 2773480762,
   1359893119, 2600822924, 528734635, 1541459225]

/-- Big-endian byte expansion of a number into `k` bytes. -/
def beBytes : Nat → Nat → List Nat
  | 0, _ => []
  | k + 1, n => beBytes k (n / 256) ++ [n % 256]

/-- Group a byte list into big-endian 32-bit words. -/
def bytesToWords : List Nat → List Nat
  | a :: b :: c :: d :: rest => (((a * 256 + b) * 256 + c) * 256 + d) :: bytesToWords rest
  | _ => []

/-- SHA-256 message padding: a `0x80` byte, zeros to 56 mod 64, then the
bit length in 8 big-endian bytes. -/
def sha256pad (msg : List Nat) : List Nat :=
  let len := msg.length
  let zeros := (64 - (len + 9) % 64) % 64
  msg ++ 0x80 :: List.replicate zeros 0 ++ beBytes 8 (len * 8)

/-- Append the next message-schedule word to the schedule built so far. -/
def shaExtendStep (w : List Nat) : List Nat :=
  let n := w.length
  w ++ [w32 (sSig1 (w.getD (n - 2) 0) + w.getD (n - 7) 0 +
             sSig0 (w.getD (n - 15) 0) + w.getD (n - 16) 0)]

/-- Extend a 16-word block to the 64-word SHA-256 message schedule. -/
def shaSchedule (block : List Nat) : List Nat :=
  (List.range 48).foldl (fun w _ => shaExtendStep w) block

/-- One SHA-256 compression round on the state `[a,b,c,d,e,f,g,h]` with a
round constant and a schedule word. -/
def shaRound (st : List Nat) (kw : Nat × Nat) : List Nat :=
  match st with
  | [a, b, c, d, e, f, g, h] =>
    let ch := e &&& f ^^^ (4294967295 ^^^ e) &&& g
    let maj := a &&& b ^^^ a &&& c ^^^ b &&& c
    let t1 := w32 (h + bSig1 e + ch + kw.1 + kw.2)
    let t2 := w32 (bSig0 a + maj)
    [w32 (t1 + t2), a, b, c, w32 (d + t1), e, f, g]
  | _ => st

/-- Process one 64-byte block into the running hash state. -/
def shaProcessBlock (h : List Nat) (block : List Nat) : List Nat :=
  let w := shaSchedule (bytesToWords block)
  let st := (List.zip shaK w).foldl shaRound h
  List.zipWith (fun x y => w32 (x + y)) h st

/-- Split a byte list into 64-byte chunks (fuel-driven; each step consumes
at least one byte, so the list's length is enough fuel). -/
def chunksAux : Nat → List Nat → List (List Nat)
  | 0, _ => []
  | _, [] => []
  | fuel + 1, xs => xs.take 64 :: chunksAux fuel (xs.drop 64)

/-- Split a byte list into 64-byte chunks. -/
def chunks64 (l : List Nat) : List (List Nat) := chunksAux l.length l

/-- SHA-256 of a byte sequence (Go `crypto/sha256`), as 32 bytes. -/
def sha256 (msg : List Nat) : List Nat :=
  let final := (chunks64 (sha256pad msg)).foldl shaProcessBlock shaInitH
  (final.map (beBytes 4)).flatten

/-- The key-preprocessing step of `crypto/hmac` for SHA-256: a key longer
than the 64-byte block size is replaced by its hash, then the key is
zero-padded to the block size. -/
def hmacPadKey (key : List Nat) : List Nat :=
  let k := if key.length > 64 then sha256 key else key
  k ++ List.replicate (64 - k.length) 0

/-- HMAC-SHA256 (Go `hmac.New(sha256.New, key)` followed by
`Write`/`Sum`). -/
def hmacSHA256 (key msg : List Nat) : List Nat :=
  sha256 ((hmacPadKey key).map (fun b => b ^^^ 92) ++
          sha256 ((hmacPadKey key).map (fun b => b ^^^ 54) ++ msg))

/-- Lower-case hex encoding of a byte sequence (`hex.EncodeToString`). -/
def hexEncode (bytes : List Nat) : String :=
  String.mk ((bytes.map (fun b =>
    [Char.ofNat (if b / 16 % 16 < 10 then 48 + b / 16 % 16 else 87 + b / 16 % 16),
     Char.ofNat (if b % 16 < 10 then 48 + b % 16 else 87 + b % 16)])).flatten)

/-- The signature computation of the controller `sendWebhookEvent`
(webhook_controller.go lines 1150-1153): HMAC-SHA256 of the marshalled
body under the subscription secret, hex-encoded, with the `sha256=`
prefix. -/
def signatureHeader (secret body : List Nat) : String :=
  "sha256=" ++ hexEncode (hmacSHA256 secret body)

/-- The headers set by the controller `sendWebhookEvent`
(webhook_controller.go lines 1161-1164). -/
def webhookRequestHeaders (webhook : WebhookConfig) (body : List Nat) :
    List (String × String) :=
  [("Content-Type", "application/json"),
   ("X-Webhook-Signature", signatureHeader webhook.secret body),
   ("User-Agent", "WhatsApp-API-Go/1.0")]

/-- Modelled from the spec: subscriber-side verification of the
`X-Webhook-Signature` header is not part of src (the repository only
produces the header); per spec sections 4.4 and 8 the subscriber
recomputes the value from its copy of the secret and the received body and
compares it with the header. -/
def verifySignature (secret body : List Nat) (header : String) : Bool :=
  signatureHeader secret body == header

/-- An endpoint that always answers HTTP 500 (`success = 500 ∈ 2xx` is
false, no transport error, 5 ms latency). -/
def always500 : Int → Outcome :=
  fun _ => { success := false, statusCode := 500, responseTime := 5 }

/-- An endpoint that always answers HTTP 200. -/
def alwaysOk : Int → Outcome :=
  fun _ => { success := true, statusCode := 200, responseTime := 7 }

/-- A single HTTP 200 outcome, for manual retries. -/
def ok200 : Outcome := { success := true, statusCode := 200, responseTime := 7 }

/-- A single HTTP 500 outcome, for manual retries. -/
def fail500 : Outcome := { success := false, statusCode := 500, responseTime := 5 }

/-- The subscription of the spec's retry scenario: `max_retries = 3`. -/
def scenarioWebhook : WebhookConfig := { maxRetries := 3 }

/-- A subscription with `max_retries = 7`, whose all-fail run exhibits the
full backoff ladder 1s..32s. -/
def backoffWebhook : WebhookConfig := { maxRetries := 7 }

/-- The delivery task of the spec's retry scenario: `max_retries = 3`
against the always-500 endpoint. -/
def scenarioRun : WebhookLog × List (Bool × Int) × List Int :=
  sendWebhookEvent scenarioWebhook "evt-1" "message.received" "payload" always500

/-- The scenario subscription's metrics after that delivery task. -/
def scenarioMetrics : WebhookMetrics := applyOutcomes scenarioRun.2.1

/-- C1, claim as stated is false: with `max_retries = 3` and an endpoint
that always returns 500, the finished delivery task leaves
`total_failed = 3`, not `1` — `updateWebhookMetrics` runs once per attempt
inside the retry loop, so each of the three failed attempts increments
`total_failed`. -/
theorem C1_counterexample :
    scenarioRun.1.isSuccess = false ∧ scenarioRun.1.attemptCount = 3 ∧
    scenarioMetrics.totalFailed = 3 ∧ ¬ scenarioMetrics.totalFailed = 1 := by
  refine ⟨rfl, rfl, rfl, ?_⟩
  decide

/-- C1 (amended): with `max_retries = 3` and an always-500 endpoint the
finished delivery task has `is_success = false`, `attempt_count = 3`, and
the subscription's metrics show `total_failed = 3` (one increment per
attempt); a subsequent manual retry of that event with the endpoint now
returning 200 sets `is_success = true` and `attempt_count = 4`, and the
metrics then show `total_success = 1`, `total_failed = 3`,
`total_sent = 4`. -/
theorem C1_retry_scenario :
    scenarioRun.1.isSuccess = false ∧
    scenarioRun.1.attemptCount = 3 ∧
    scenarioMetrics.totalFailed = 3 ∧
    (retryEvent scenarioRun.1 scenarioWebhook ok200 scenarioMetrics).log.isSuccess = true ∧
    (retryEvent scenarioRun.1 scenarioWebhook ok200 scenarioMetrics).log.attemptCount = 4 ∧
    (retryEvent scenarioRun.1 scenarioWebhook ok200 scenarioMetrics).metrics.totalSuccess = 1 ∧
    (retryEvent scenarioRun.1 scenarioWebhook ok200 scenarioMetrics).metrics.totalFailed = 3 ∧
    (retryEvent scenarioRun.1 scenarioWebhook ok200 scenarioMetrics).metrics.totalSent = 4 := by
  refine ⟨rfl, rfl, rfl, rfl, rfl, rfl, rfl, rfl⟩

/-- C2, claim as stated is false: a record that exhausted its
subscription's `max_retries = 3` and is then manually retried ends with
`attempt_count = 4 > max_retries` — `RetryEvent` increments the count with
no cap. -/
theorem C2_counterexample :
    (retryEvent scenarioRun.1 scenarioWebhook ok200 scenarioMetrics).log.attemptCount = 4 ∧
    ¬ (retryEvent scenarioRun.1 scenarioWebhook ok200 scenarioMetrics).log.attemptCount ≤
        scenarioWebhook.maxRetries := by
  refine ⟨rfl, ?_⟩
  decide

/-- Every attempt number the retry loop writes into the record stays at or
below `max_retries` (the loop runs the attempt counter from 1 to
`MaxRetries` and stops), provided the incoming record obeys the bound. -/
theorem sendLoopAux_attemptCount_le (outcome : Int → Outcome) (maxRetries : Int)
    (fuel : Nat) :
    ∀ (attempt : Int) (log : WebhookLog),
      attempt ≤ maxRetries → log.attemptCount ≤ max maxRetries 0 →
      (sendLoopAux outcome maxRetries fuel attempt log).1.attemptCount ≤ max maxRetries 0 := by
  induction fuel with
  | zero =>
    intro attempt log _ hlog
    simpa [sendLoopAux] using hlog
  | succ fuel ih =>
    intro attempt log hatt hlog
    simp only [sendLoopAux]
    cases hs : (outcome attempt).success
    · simp only [hs, Bool.false_eq_true, if_false]
      by_cases hlt : attempt < maxRetries
      · simp only [hlt, if_true]
        exact ih (attempt + 1) _ (by omega) (by simpa using le_trans hatt (le_max_left _ _))
      · simp only [hlt, if_false]
        simpa using le_trans hatt (le_max_left _ _)
    · simp only [hs, if_true]
      simpa using le_trans hatt (le_max_left _ _)

/-- C2 (amended): after the automatic delivery loop alone every record's
`attempt_count` is at most `max_retries` (at most 0 when `max_retries` is
not positive); but each manual retry of a not-yet-successful record
increments `attempt_count` by one without any cap, so a record that
exhausted `max_retries` and is then manually retried exceeds it. -/
theorem C2_attempt_count_bound :
    (∀ (webhook : WebhookConfig) (eventID eventType payload : String)
       (outcome : Int → Outcome),
       (sendWebhookEvent webhook eventID eventType payload outcome).1.attemptCount ≤
         max webhook.maxRetries 0)
    ∧ (∀ (log : WebhookLog) (w : WebhookConfig) (o : Outcome) (m : WebhookMetrics),
       (retryEvent log w o m).log.attemptCount =
         if log.isSuccess then log.attemptCount else log.attemptCount + 1) := by
  constructor
  · intro webhook eventID eventType payload outcome
    unfold sendWebhookEvent
    by_cases h : 1 ≤ webhook.maxRetries
    · exact sendLoopAux_attemptCount_le _ _ _ 1 _ h (by simp)
    · have h0 : webhook.maxRetries.toNat = 0 := by omega
      rw [h0]
      simp only [sendLoopAux]
      exact le_max_right webhook.maxRetries 0
  · intro log w o m
    unfold retryEvent
    cases h : log.isSuccess <;> simp [h]

/-- C6, claim as stated is false: at attempt number 35 the product
`time.Second * (1 << 34)` overflows `int64` to a negative duration, which
escapes the 32-second cap (the cap only triggers on values greater than
32s), so the delay is not `min(2^34 s, 32 s) = 32 s`. -/
theorem C6_counterexample :
    calculateBackoff 35 < 0 ∧
    calculateBackoff 35 ≠ min (2 ^ ((35 : Int) - 1).toNat * second) (32 * second) := by
  constructor <;> decide

/-- C6 (amended): for every attempt number 1 ≤ n ≤ 34 the computed backoff
equals `min(2^(n-1) seconds, 32 seconds)` — in particular 1s, 2s, 4s, 8s,
16s, 32s for attempts 1..6 and 32s for attempts 7..34 (at attempt 35,
int64 overflow breaks the formula); the all-fail run of a `max_retries = 7`
subscription sleeps exactly 1s, 2s, 4s, 8s, 16s, 32s between its seven
attempts, and a run whose first attempt succeeds sleeps never — no delay
precedes the first attempt. -/
theorem C6_backoff_schedule :
    (∀ n : Int, 1 ≤ n → n ≤ 34 →
       calculateBackoff n = min (2 ^ (n - 1).toNat * second) (32 * second))
    ∧ (sendWebhookEvent backoffWebhook "e" "t" "p" always500).2.2 =
        [second, 2 * second, 4 * second, 8 * second, 16 * second, 32 * second]
    ∧ (sendWebhookEvent scenarioWebhook "e" "t" "p" alwaysOk).2.2 = [] := by
  refine ⟨?_, by decide, by decide⟩
  intro n h1 h2
  interval_cases n <;> decide

/-- C6 witness: the amended formula evaluated at attempt number 6 gives
the 32-second cap value. -/
theorem C6_backoff_witness :
    (1 : Int) ≤ 6 ∧ (6 : Int) ≤ 34 ∧
    calculateBackoff 6 = min (2 ^ ((6 : Int) - 1).toNat * second) (32 * second) :=
  ⟨by decide, by decide, C6_backoff_schedule.1 6 (by decide) (by decide)⟩

/-- A stored record of a delivery that failed after three attempts. -/
def retryFailLog : WebhookLog :=
  { attemptCount := 3, statusCode := 500, isSuccess := false }

/-- C3, claim as stated is false: a manual retry of a failed record whose
new attempt also fails is not rejected and does perform the attempt, yet
the subscription's metrics are left untouched (`RetryEvent` only calls
`updateWebhookMetrics` when the attempt succeeded), while the claim
requires them to be updated with the attempt's outcome (which would have
incremented `total_sent`). -/
theorem C3_counterexample :
    (retryEvent retryFailLog scenarioWebhook fail500 initialMetrics).rejected = false ∧
    (retryEvent retryFailLog scenarioWebhook fail500 initialMetrics).metrics.totalSent = 0 ∧
    (updateWebhookMetrics initialMetrics false fail500.responseTime).totalSent = 1 :=
  ⟨rfl, rfl, rfl⟩

/-- C3 (amended): given the stored record, its subscription and the
replayed attempt's outcome, the manual retry is rejected exactly when the
record already has `is_success = true` — and then the record and metrics
are unchanged and no attempt is performed; otherwise exactly one delivery
attempt is performed, the record's `attempt_count` grows by one and its
outcome fields are overwritten, and the subscription's metrics are updated
only when that attempt succeeded (a failed manual retry leaves them
unchanged). -/
theorem C3_retry_behaviour :
    ∀ (log : WebhookLog) (w : WebhookConfig) (o : Outcome) (m : WebhookMetrics),
      (retryEvent log w o m).rejected = log.isSuccess ∧
      (retryEvent log w o m).attemptsMade = (if log.isSuccess then 0 else 1) ∧
      (retryEvent log w o m).log =
        (if log.isSuccess then log
         else { log with attemptCount := log.attemptCount + 1, statusCode := o.statusCode,
                         responseTime := o.responseTime, isSuccess := o.success,
                         errorMessage := match o.errMsg with
                           | some e => e
                           | none => "" }) ∧
      (retryEvent log w o m).metrics =
        (if log.isSuccess then m
         else if o.success then updateWebhookMetrics m true o.responseTime else m) := by
  intro log w o m
  unfold retryEvent
  cases h : log.isSuccess <;> simp [h]

/-- The inductive invariant of the metrics aggregator: the counters are
consistent and non-negative and the success rate is a percentage. -/
def MetricsInv (m : WebhookMetrics) : Prop :=
  m.totalSent = m.totalSuccess + m.totalFailed ∧
  0 ≤ m.totalSuccess ∧ 0 ≤ m.totalFailed ∧
  0 ≤ m.successRate ∧ m.successRate ≤ 100

/-- A ratio of a non-negative numerator over a larger positive denominator
scaled to percent lies in [0, 100]. -/
theorem rate_bounds (a b : Int) (ha : 0 ≤ a) (hb : a ≤ b) (hbp : 0 < b) :
    0 ≤ ((a : ℚ) / (b : ℚ)) * 100 ∧ ((a : ℚ) / (b : ℚ)) * 100 ≤ 100 := by
  have ha' : (0 : ℚ) ≤ (a : ℚ) := by exact_mod_cast ha
  have hb' : (a : ℚ) ≤ (b : ℚ) := by exact_mod_cast hb
  have hbp' : (0 : ℚ) < (b : ℚ) := by exact_mod_cast hbp
  constructor
  · positivity
  · have h1 : (a : ℚ) / (b : ℚ) ≤ 1 := (div_le_one hbp').mpr hb'
    have h2 := mul_le_mul_of_nonneg_right h1 (by norm_num : (0 : ℚ) ≤ 100)
    simpa using h2

/-- One metrics update preserves the invariant. -/
theorem metricsInv_update (m : WebhookMetrics) (s : Bool) (rt : Int)
    (h : MetricsInv m) : MetricsInv (updateWebhookMetrics m s rt) := by
  obtain ⟨h1, h2, h3, _, _⟩ := h
  have hpos : (0 : Int) < m.totalSent + 1 := by omega
  unfold MetricsInv updateWebhookMetrics
  cases s
  · simp only [Bool.false_eq_true, if_false, hpos, if_true, gt_iff_lt]
    have hr := rate_bounds m.totalSuccess (m.totalSent + 1) h2 (by omega) hpos
    exact ⟨by omega, by omega, by omega, hr.1, hr.2⟩
  · simp only [if_true, hpos, gt_iff_lt]
    have hr := rate_bounds (m.totalSuccess + 1) (m.totalSent + 1) (by omega) (by omega) hpos
    exact ⟨by omega, by omega, by omega, hr.1, hr.2⟩

/-- The invariant holds along any fold of attempt outcomes. -/
theorem metricsInv_foldl (outcomes : List (Bool × Int)) :
    ∀ m : WebhookMetrics, MetricsInv m →
      MetricsInv (outcomes.foldl (fun m u => updateWebhookMetrics m u.1 u.2) m) := by
  induction outcomes with
  | nil => intro m h; exact h
  | cons u rest ih => intro m h; exact ih _ (metricsInv_update m u.1 u.2 h)

/-- C4: after any sequence of recorded attempt outcomes, starting from the
zeroed metrics row the endpoints create, the subscription's metrics
satisfy `total_sent = total_success + total_failed` and
`success_rate ∈ [0, 100]`. -/
theorem C4_metrics_invariant (outcomes : List (Bool × Int)) :
    (applyOutcomes outcomes).totalSent =
      (applyOutcomes outcomes).totalSuccess + (applyOutcomes outcomes).totalFailed ∧
    0 ≤ (applyOutcomes outcomes).successRate ∧
    (applyOutcomes outcomes).successRate ≤ 100 := by
  have h0 : MetricsInv initialMetrics := by
    refine ⟨rfl, le_refl _, le_refl _, le_refl _, ?_⟩
    norm_num [initialMetrics]
  have h := metricsInv_foldl outcomes initialMetrics h0
  exact ⟨h.1, h.2.2.2.1, h.2.2.2.2⟩

/-- C5: each recorded outcome with latency `rt` sets the stored average to
`rt` when the stored average is 0 (its creation default, i.e. no prior
average) and to the two-point smoothing `(old + rt) / 2` otherwise; the
result is not the true mean over all samples — the latencies 1, 2, 3
produce 9/4, not 2. -/
theorem C5_avg_two_point :
    (∀ (m : WebhookMetrics) (s : Bool) (rt : Int),
       (updateWebhookMetrics m s rt).avgResponseTime =
         (if m.avgResponseTime = 0 then (rt : ℚ)
          else (m.avgResponseTime + (rt : ℚ)) / 2))
    ∧ (applyOutcomes [(true, 1), (true, 2), (true, 3)]).avgResponseTime = 9 / 4
    ∧ (9 / 4 : ℚ) ≠ (1 + 2 + 3) / 3 := by
  refine ⟨?_, by norm_num [applyOutcomes, updateWebhookMetrics, initialMetrics], by norm_num⟩
  intro m s rt
  unfold updateWebhookMetrics
  by_cases h : m.avgResponseTime = 0 <;> simp [h]

/-- Unmarshalling a marshalled `[]string` round-trips. -/
theorem decodeStrings_map_str (l : List String) :
    decodeStrings (l.map Json.str) = some l := by
  induction l with
  | nil => rfl
  | cons x xs ih => simp [decodeStrings, asString, ih]

/-- On a well-formed stored string array, the event filter check is the
wildcard-or-exact-match scan. -/
theorem isEventConfigured_arr (w : WebhookConfig) (l : List String) (ty : String)
    (h : w.events = .json (.arr (l.map .str))) :
    isEventConfigured w ty = l.any (fun e => e == ty || e == "*") := by
  unfold isEventConfigured
  rw [h]
  simp [unmarshalStringArray, decodeStrings_map_str]

/-- C7: for a subscription whose stored filter is a string array `l`, the
dispatcher starts a delivery task for an envelope exactly when the
subscription is active and `l` holds the envelope's event type or the
wildcard; in particular a `["message.received"]` filter never matches a
`call.incoming` envelope and a `["*"]` filter matches every event type. -/
theorem C7_dispatch_filter :
    (∀ (webhooks : List WebhookConfig) (w : WebhookConfig) (eventType : String)
       (l : List String),
       w.events = .json (.arr (l.map .str)) →
       (w ∈ processEventTargets webhooks eventType ↔
         w ∈ webhooks ∧ w.isActive = true ∧ (eventType ∈ l ∨ "*" ∈ l)))
    ∧ (∀ w : WebhookConfig, w.events = .json (.arr [.str "message.received"]) →
        isEventConfigured w "call.incoming" = false)
    ∧ (∀ (w : WebhookConfig) (ty : String), w.events = .json (.arr [.str "*"]) →
        isEventConfigured w ty = true) := by
  refine ⟨?_, ?_, ?_⟩
  · intro webhooks w eventType l h
    unfold processEventTargets
    simp only [List.mem_filter]
    rw [isEventConfigured_arr w l eventType h]
    simp only [List.any_eq_true, Bool.or_eq_true, beq_iff_eq]
    constructor
    · rintro ⟨⟨hw, ha⟩, x, hx, hor⟩
      refine ⟨hw, ha, ?_⟩
      cases hor with
      | inl he => exact Or.inl (he ▸ hx)
      | inr he => exact Or.inr (he ▸ hx)
    · rintro ⟨hw, ha, hor⟩
      refine ⟨⟨hw, ha⟩, ?_⟩
      cases hor with
      | inl h2 => exact ⟨eventType, h2, Or.inl rfl⟩
      | inr h2 => exact ⟨"*", h2, Or.inr rfl⟩
  · intro w h
    rw [isEventConfigured_arr w ["message.received"] "call.incoming" h]
    rfl
  · intro w ty h
    rw [isEventConfigured_arr w ["*"] ty h]
    simp

/-- A subscription whose stored filter is the wildcard array. -/
def starWebhook : WebhookConfig := { events := .json (.arr [.str "*"]) }

/-- C7 witness: the wildcard subscription is dispatched a `call.incoming`
envelope. -/
theorem C7_dispatch_filter_witness :
    starWebhook.events = .json (.arr (["*"].map .str)) ∧
    (starWebhook ∈ processEventTargets [starWebhook] "call.incoming" ↔
      starWebhook ∈ [starWebhook] ∧ starWebhook.isActive = true ∧
        ("call.incoming" ∈ (["*"] : List String) ∨ "*" ∈ (["*"] : List String))) :=
  ⟨rfl, C7_dispatch_filter.1 [starWebhook] starWebhook "call.incoming" ["*"] rfl⟩

/-- C10: a subscription whose stored events text does not unmarshal into a
string array fails the filter check for every event type (so the
dispatcher silently skips it), and the filters endpoint stores a JSON
object in the events column, after which the subscription matches no event
type at all. -/
theorem C10_malformed_filter :
    (∀ (w : WebhookConfig) (ty : String),
       unmarshalStringArray w.events = none → isEventConfigured w ty = false)
    ∧ (∀ (w : WebhookConfig) (req : WebhookFiltersRequest) (ty : String),
       isEventConfigured (configureFilters w req) ty = false) := by
  constructor
  · intro w ty h
    unfold isEventConfigured
    rw [h]
  · intro w req ty
    rfl

/-- A subscription whose stored events text is malformed. -/
def badEventsWebhook : WebhookConfig := { events := .invalid }

/-- C10 witness: a malformed events text fails to unmarshal and the
subscription matches no event. -/
theorem C10_malformed_filter_witness :
    unmarshalStringArray badEventsWebhook.events = none ∧
    isEventConfigured badEventsWebhook "message.received" = false :=
  ⟨rfl, C10_malformed_filter.1 badEventsWebhook "message.received" rfl⟩

/-- The call policy of the spec's scenario: auto-reject on, caller `X`
whitelisted, a configured default message. -/
def whitelistPolicy : CallRejectConfig :=
  { autoReject := true,
    whitelistNumbers := .json (.arr [.str "X"]),
    customMessages := .json (.obj [("default", .str "Estoy ocupado")]) }

/-- C8: no reject action is issued when the instance has no call policy,
and with a policy the reject action is issued exactly when `auto_reject`
is set, the caller is not whitelisted, and not (schedule enabled and the
time outside the schedule — a branch the stubbed schedule check never
takes); the reject message is the explicit per-request message if given,
else the configured `"default"` custom message, else the hard-coded
fallback.  Scenario: with caller `X` whitelisted, a call from `X` is not
rejected, a call from `Y` is, and the resolved message is the configured
default. -/
theorem C8_call_policy :
    (∀ caller, handleAutoRejectCall none caller = false)
    ∧ (∀ (cfg : CallRejectConfig) (caller : String),
        handleAutoRejectCall (some cfg) caller =
          (cfg.autoReject && !isNumberWhitelisted cfg caller &&
           !(cfg.scheduleEnabled && !isWithinSchedule cfg)))
    ∧ (∀ (req : String) (cfg : CallRejectConfig),
        resolveRejectMessage req cfg =
          (if req = "" then
             match configuredDefault cfg with
             | some d => d
             | none => fallbackRejectMessage
           else req))
    ∧ handleAutoRejectCall (some whitelistPolicy) "X" = false
    ∧ handleAutoRejectCall (some whitelistPolicy) "Y" = true
    ∧ resolveRejectMessage "" whitelistPolicy = "Estoy ocupado"
    ∧ resolveRejectMessage "mensaje explicito" whitelistPolicy = "mensaje explicito" := by
  refine ⟨fun _ => rfl, ?_, ?_, rfl, rfl, rfl, rfl⟩
  · intro cfg caller
    unfold handleAutoRejectCall
    cases ha : cfg.autoReject <;> cases hw : isNumberWhitelisted cfg caller <;>
      cases hs : cfg.scheduleEnabled <;> cases hi : isWithinSchedule cfg <;>
        simp [ha, hw, hs, hi]
  · intro req cfg
    unfold resolveRejectMessage configuredDefault
    by_cases hr : req = ""
    · cases hc : cfg.customMessages with
      | emptyStr => simp [hr, unmarshalStringMap]
      | json j =>
        cases hm : unmarshalStringMap (.json j) with
        | none => simp [hr, hm]
        | some msgs => cases hl : lookupString "default" msgs <;> simp [hr, hm, hl]
      | invalid => simp [hr, unmarshalStringMap]
    · simp [hr]


/-- The HMAC block-size zero padding identifies a short key with the same
key extended by a zero byte. -/
theorem hmacPadKey_append_zero (s : List Nat) (h : s.length ≤ 63) :
    hmacPadKey (s ++ [0]) = hmacPadKey s := by
  have h1 : ¬ s.length > 64 := by omega
  have h2 : ¬ (s ++ [0]).length > 64 := by
    simp only [List.length_append, List.length_singleton]
    omega
  unfold hmacPadKey
  dsimp only
  rw [if_neg h2, if_neg h1, List.length_append, List.length_singleton, List.append_assoc]
  congr 1
  have h3 : 64 - s.length = (64 - (s.length + 1)) + 1 := by omega
  rw [h3, List.replicate_succ]
  rfl

/-- Appending a zero byte to a short key does not change the HMAC. -/
theorem hmacSHA256_append_zero (s msg : List Nat) (h : s.length ≤ 63) :
    hmacSHA256 (s ++ [0]) msg = hmacSHA256 s msg := by
  unfold hmacSHA256
  rw [hmacPadKey_append_zero s h]

/-- The UTF-8 bytes of a delivery body the executor actually sends: the
marshalled envelope of an `instance.connected` event for instance `inst1`
at timestamp 0 — keys `data` (holding the event's timestamp), `event`,
`instance_id`, `timestamp`, serialized by `json.Marshal` in sorted key
order. -/
def sampleBody : List Nat :=
  [123, 34, 100, 97, 116, 97, 34, 58, 123, 34, 116, 105, 109, 101, 115,
   116, 97, 109, 112, 34, 58, 48, 125, 44, 34, 101, 118, 101, 110, 116,
   34, 58, 34, 105, 110, 115, 116, 97, 110, 99, 101, 46, 99, 111, 110,
   110, 101, 99, 116, 101, 100, 34, 44, 34, 105, 110, 115, 116, 97, 110,
   99, 101, 95, 105, 100, 34, 58, 34, 105, 110, 115, 116, 49, 34, 44,
   34, 116, 105, 109, 101, 115, 116, 97, 109, 112, 34, 58, 48, 125]

/-- C9, claim as stated is false: on a marshalled delivery body the
executor sends, the distinct secrets `0x6b` and `0x6b 0x00` produce the
same signature (the HMAC key is zero-padded to the 64-byte block size), so
verifying that body's signature with a secret other than the signing one
does not always fail. -/
theorem C9_counterexample :
    ([107, 0] : List Nat) ≠ [107] ∧
    verifySignature [107, 0] sampleBody (signatureHeader [107] sampleBody) = true := by
  refine ⟨by decide, ?_⟩
  unfold verifySignature
  rw [show ([107, 0] : List Nat) = [107] ++ [0] from rfl]
  unfold signatureHeader
  rw [hmacSHA256_append_zero [107] sampleBody (by decide)]
  simp

/-- C9 (amended): for every subscription and every body, the delivery
executor's `X-Webhook-Signature` header value is exactly
`"sha256=" ++ hex(HMAC_SHA256(secret, body))`; for every secret, body and
other secret whose signature of that body differs, verification fails;
but verification with a different secret does not always fail — every
secret of at most 63 bytes and that secret with a zero byte appended sign
every body identically, because HMAC zero-pads keys to its 64-byte
block. -/
theorem C9_signature :
    (∀ (w : WebhookConfig) (b : List Nat),
       webhookRequestHeaders w b =
         [("Content-Type", "application/json"),
          ("X-Webhook-Signature", "sha256=" ++ hexEncode (hmacSHA256 w.secret b)),
          ("User-Agent", "WhatsApp-API-Go/1.0")]) ∧
    (∀ (s b s2 : List Nat),
       signatureHeader s2 b ≠ signatureHeader s b →
       verifySignature s2 b (signatureHeader s b) = false) ∧
    (∀ (s b : List Nat), s.length ≤ 63 →
       s ++ [0] ≠ s ∧
       verifySignature (s ++ [0]) b (signatureHeader s b) = true) := by
  refine ⟨fun w b => rfl, ?_, ?_⟩
  · intro s b s2 hne
    unfold verifySignature
    exact beq_eq_false_iff_ne.mpr hne
  · intro s b h
    constructor
    · intro he
      have hlen := congrArg List.length he
      simp at hlen
    · unfold verifySignature
      unfold signatureHeader
      rw [hmacSHA256_append_zero s b h]
      simp

set_option maxRecDepth 20000 in
/-- C9 witness: on the sample delivery body, the secret `0x32` signs
differently from `0x6b` and fails verification against the `0x6b` header,
while `0x6b 0x00` signs identically and verifies. -/
theorem C9_signature_witness :
    (signatureHeader [50] sampleBody ≠ signatureHeader [107] sampleBody ∧
     verifySignature [50] sampleBody (signatureHeader [107] sampleBody) = false) ∧
    (([107] : List Nat).length ≤ 63 ∧
     ([107] : List Nat) ++ [0] ≠ [107] ∧
     verifySignature ([107] ++ [0]) sampleBody (signatureHeader [107] sampleBody) = true) :=
  ⟨⟨by decide, C9_signature.2.1 [107] sampleBody [50] (by decide)⟩,
   ⟨by decide, (C9_signature.2.2 [107] sampleBody (by decide)).1,
    (C9_signature.2.2 [107] sampleBody (by decide)).2⟩⟩
